import Mathlib

/-!
Shallow embedding of the centurion SDL2 wrapper library.

Each wrapper operation is modelled as a pure function.  Library calls made by
an operation are recorded in an explicit call trace (a `List` of call
descriptors carrying the exact argument values forwarded to the native
library), and values that the native library produces (return values of
`Mix_*`/`SDL_*` calls, the string yielded by `SDL_GetError()`) are passed in
as explicit parameters.  Operations that can throw return an `Outcome`, with
`Outcome.thrown` marking a thrown exception; operations declared `noexcept`
in the source always produce `Outcome.ok`.
-/

namespace Centurion

/-- A native library handle: either a null pointer or a valid handle. -/
inductive Handle where
  | null
  | valid (id : Nat)
  deriving DecidableEq, Repr

/-- The centurion exception hierarchy as used at the throw sites in the
sources: `cen_error`, `sdl_error` (carrying the `SDL_GetError()` string),
`mix_error`, and the old-style `exception`. -/
inductive CenError where
  | cen_error (msg : String)
  | sdl_error (msg : String)
  | mix_error (msg : String)
  | exception (msg : String)
  deriving DecidableEq, Repr

/-- Result of running a wrapper operation: a normal return or a thrown
exception. -/
inductive Outcome (α : Type) where
  | ok (val : α)
  | thrown (e : CenError)
  deriving DecidableEq, Repr

/-- Whether an outcome is a thrown exception. -/
def Outcome.throws {α : Type} : Outcome α → Bool
  | .thrown _ => true
  | .ok _ => false

/-! ### Audio: `src/src/audio/music.cpp` -/

/-- Calls into the SDL_mixer music API, with the exact arguments passed. -/
inductive MixCall where
  | playMusic (nLoops : Int)
  | fadeInMusic (nLoops : Int) (ms : Int)
  | fadeOutMusic (ms : Int)
  | volumeMusic (volume : Int)
  | resumeMusic
  | pauseMusic
  | haltMusic
  deriving DecidableEq, Repr

/-- `MIX_MAX_VOLUME` from the SDL_mixer header. -/
def MIX_MAX_VOLUME : Int := 128

/-- `std::clamp(v, lo, hi)`: `v < lo ? lo : (hi < v ? hi : v)`. -/
def clamp (v lo hi : Int) : Int :=
  if v < lo then lo else if hi < v then hi else v

/-- `Mix_FadingMusic()` status values (`MIX_NO_FADING`, `MIX_FADING_OUT`,
`MIX_FADING_IN`); `music::get_fade_status` casts this value directly to the
wrapper `fade_status` enum. -/
inductive Mix_Fading where
  | no_fading
  | fading_out
  | fading_in
  deriving DecidableEq, Repr

namespace music

/-- The music constructor, `music::music(nn_czstring)`: stores the result of
`Mix_LoadMUS(file)` and throws `mix_error` when it is null. -/
def ctor (loadResult : Handle) : Outcome Handle :=
  if loadResult = Handle.null then
    Outcome.thrown (CenError.mix_error ("Failed to load music from file!"))
  else
    Outcome.ok loadResult

/-- `music::play(int nLoops)`: clamps `nLoops` below `-1` up to `-1`, then
calls `Mix_PlayMusic(m_music.get(), nLoops)`. -/
def play (nLoops : Int) : List MixCall :=
  let n := if nLoops < -1 then -1 else nLoops
  [MixCall.playMusic n]

/-- `music::fade_in(milliseconds<int> ms, int nLoops)`: clamps negative `ms`
to `0` and `nLoops` below `-1` up to `-1`, then calls
`Mix_FadeInMusic(m_music.get(), nLoops, ms.count())`. -/
def fade_in (ms : Int) (nLoops : Int) : List MixCall :=
  let m := if ms < 0 then 0 else ms
  let n := if nLoops < -1 then -1 else nLoops
  [MixCall.fadeInMusic n m]

/-- `music::is_fading()`: the fade status equals `fade_status::in` or
`fade_status::out`. -/
def is_fading (status : Mix_Fading) : Bool :=
  status == Mix_Fading.fading_in || status == Mix_Fading.fading_out

/-- `music::fade_out(milliseconds<int> ms)`: returns early when already
fading, otherwise clamps negative `ms` to `0` and calls
`Mix_FadeOutMusic(ms.count())`. -/
def fade_out (fading : Mix_Fading) (ms : Int) : List MixCall :=
  if is_fading fading then []
  else
    let m := if ms < 0 then 0 else ms
    [MixCall.fadeOutMusic m]

/-- `music::set_volume(int volume)`: calls
`Mix_VolumeMusic(std::clamp(volume, 0, MIX_MAX_VOLUME))`. -/
def set_volume (volume : Int) : List MixCall :=
  [MixCall.volumeMusic (clamp volume 0 MIX_MAX_VOLUME)]

/-- `music::volume()`: `return Mix_VolumeMusic(-1);` — the value yielded by
the library call is returned unchanged; the call made is recorded. -/
def volume (mixReturns : Int) : Int × List MixCall :=
  (mixReturns, [MixCall.volumeMusic (-1)])

end music

/-! ### Threads: `thread.hpp` -/

/-- Native SDL thread-related constants, from the SDL header
(`SDL_ThreadPriority`). -/
def SDL_THREAD_PRIORITY_LOW : Nat := 0

/-- `SDL_THREAD_PRIORITY_NORMAL` from the SDL header. -/
def SDL_THREAD_PRIORITY_NORMAL : Nat := 1

/-- `SDL_THREAD_PRIORITY_HIGH` from the SDL header. -/
def SDL_THREAD_PRIORITY_HIGH : Nat := 2

/-- `SDL_THREAD_PRIORITY_TIME_CRITICAL` from the SDL header. -/
def SDL_THREAD_PRIORITY_TIME_CRITICAL : Nat := 3

/-- `cen::thread_priority`. -/
inductive thread_priority where
  | low
  | normal
  | high
  | critical
  deriving DecidableEq, Repr

/-- Underlying integral values of `cen::thread_priority`, as assigned by the
enumerators in the source (`low = SDL_THREAD_PRIORITY_LOW`, ...). -/
def thread_priority.val : thread_priority → Nat
  | .low => SDL_THREAD_PRIORITY_LOW
  | .normal => SDL_THREAD_PRIORITY_NORMAL
  | .high => SDL_THREAD_PRIORITY_HIGH
  | .critical => SDL_THREAD_PRIORITY_TIME_CRITICAL

/-- Calls into the SDL thread API. -/
inductive SDLThreadCall where
  | waitThread
  | detachThread
  deriving DecidableEq, Repr

/-- The `cen::thread` wrapper state: the held `SDL_Thread*` and the
`m_joined` / `m_detached` flags (both default-initialised to `false`). -/
structure thread where
  m_thread : Handle
  m_joined : Bool
  m_detached : Bool
  deriving DecidableEq, Repr

/-- The thread constructor: stores `SDL_CreateThread(task, name, data)` and
throws `sdl_error{}` (carrying the `SDL_GetError()` string) when the result
is null; on success the flags start out `false`. -/
def thread.ctor (createResult : Handle) (sdlGetError : String) : Outcome thread :=
  if createResult = Handle.null then
    Outcome.thrown (CenError.sdl_error sdlGetError)
  else
    Outcome.ok (thread.mk createResult false false)

/-- `thread::join()`: returns `0` without any library call when already
joined or detached; otherwise calls `SDL_WaitThread(m_thread, &status)`,
sets `m_joined`, and returns the status the library wrote.  The value the
library writes into `status` is the parameter `status`. -/
def thread.join (t : thread) (status : Int) : Int × thread × List SDLThreadCall :=
  if t.m_joined || t.m_detached then
    (0, t, [])
  else
    (status, { t with m_joined := true }, [SDLThreadCall.waitThread])

/-- `thread::detach()`: no effect when already joined or detached; otherwise
calls `SDL_DetachThread(m_thread)` and sets `m_detached`. -/
def thread.detach (t : thread) : thread × List SDLThreadCall :=
  if t.m_joined || t.m_detached then
    (t, [])
  else
    ({ t with m_detached := true }, [SDLThreadCall.detachThread])

/-- `thread::joinable()`: `!m_joined && !m_detached`. -/
def thread.joinable (t : thread) : Bool :=
  !t.m_joined && !t.m_detached

/-- `thread::was_joined()`. -/
def thread.was_joined (t : thread) : Bool :=
  t.m_joined

/-- `thread::was_detached()`. -/
def thread.was_detached (t : thread) : Bool :=
  t.m_detached

/-- `thread::~thread()`: `if (joinable()) { join(); }` — the calls made by
the destructor. -/
def thread.dtor (t : thread) : List SDLThreadCall :=
  if t.joinable then (t.join 0).2.2 else []

/-- `thread::set_priority(thread_priority)`: a `noexcept` static member
returning `SDL_SetThreadPriority(prio) == 0` as a `result`; `sdlRet` is the
native return code. -/
def thread.set_priority (sdlRet : Int) : Outcome Bool :=
  Outcome.ok (sdlRet == 0)

/-- A mutator invoked on a `cen::thread` object. -/
inductive ThreadOp where
  | join
  | detach
  deriving DecidableEq, Repr

/-- Applies one mutator to the thread state (the status the library would
write is irrelevant to the state transition). -/
def thread.step (t : thread) : ThreadOp → thread
  | ThreadOp.join => (t.join 0).2.1
  | ThreadOp.detach => (t.detach).1

/-- Runs a sequence of `join()`/`detach()` calls on a thread. -/
def thread.run (t : thread) : List ThreadOp → thread
  | [] => t
  | op :: rest => thread.run (t.step op) rest

/-! ### Haptic devices: `haptic.hpp` -/

/-- `SDL_HAPTIC_CONSTANT` (`1u << 0`) from the SDL header. -/
def SDL_HAPTIC_CONSTANT : Nat := 1

/-- `SDL_HAPTIC_SINE` (`1u << 1`). -/
def SDL_HAPTIC_SINE : Nat := 2

/-- `SDL_HAPTIC_LEFTRIGHT` (`1u << 2`). -/
def SDL_HAPTIC_LEFTRIGHT : Nat := 4

/-- `SDL_HAPTIC_TRIANGLE` (`1u << 3`). -/
def SDL_HAPTIC_TRIANGLE : Nat := 8

/-- `SDL_HAPTIC_SAWTOOTHUP` (`1u << 4`). -/
def SDL_HAPTIC_SAWTOOTHUP : Nat := 16

/-- `SDL_HAPTIC_SAWTOOTHDOWN` (`1u << 5`). -/
def SDL_HAPTIC_SAWTOOTHDOWN : Nat := 32

/-- `SDL_HAPTIC_RAMP` (`1u << 6`). -/
def SDL_HAPTIC_RAMP : Nat := 64

/-- `SDL_HAPTIC_SPRING` (`1u << 7`). -/
def SDL_HAPTIC_SPRING : Nat := 128

/-- `SDL_HAPTIC_DAMPER` (`1u << 8`). -/
def SDL_HAPTIC_DAMPER : Nat := 256

/-- `SDL_HAPTIC_INERTIA` (`1u << 9`). -/
def SDL_HAPTIC_INERTIA : Nat := 512

/-- `SDL_HAPTIC_FRICTION` (`1u << 10`). -/
def SDL_HAPTIC_FRICTION : Nat := 1024

/-- `SDL_HAPTIC_CUSTOM` (`1u << 11`). -/
def SDL_HAPTIC_CUSTOM : Nat := 2048

/-- `SDL_HAPTIC_GAIN` (`1u << 12`). -/
def SDL_HAPTIC_GAIN : Nat := 4096

/-- `SDL_HAPTIC_AUTOCENTER` (`1u << 13`). -/
def SDL_HAPTIC_AUTOCENTER : Nat := 8192

/-- `SDL_HAPTIC_STATUS` (`1u << 14`). -/
def SDL_HAPTIC_STATUS : Nat := 16384

/-- `SDL_HAPTIC_PAUSE` (`1u << 15`). -/
def SDL_HAPTIC_PAUSE : Nat := 32768

/-- `cen::haptic_feature`. -/
inductive haptic_feature where
  | constant
  | sine
  | left_right
  | triangle
  | sawtooth_up
  | sawtooth_down
  | ramp
  | spring
  | damper
  | inertia
  | friction
  | custom
  | gain
  | autocenter
  | status
  | pause
  deriving DecidableEq, Repr

/-- Underlying integral values of `cen::haptic_feature`, as assigned by the
enumerators in the source (`constant = SDL_HAPTIC_CONSTANT`, ...). -/
def haptic_feature.val : haptic_feature → Nat
  | .constant => SDL_HAPTIC_CONSTANT
  | .sine => SDL_HAPTIC_SINE
  | .left_right => SDL_HAPTIC_LEFTRIGHT
  | .triangle => SDL_HAPTIC_TRIANGLE
  | .sawtooth_up => SDL_HAPTIC_SAWTOOTHUP
  | .sawtooth_down => SDL_HAPTIC_SAWTOOTHDOWN
  | .ramp => SDL_HAPTIC_RAMP
  | .spring => SDL_HAPTIC_SPRING
  | .damper => SDL_HAPTIC_DAMPER
  | .inertia => SDL_HAPTIC_INERTIA
  | .friction => SDL_HAPTIC_FRICTION
  | .custom => SDL_HAPTIC_CUSTOM
  | .gain => SDL_HAPTIC_GAIN
  | .autocenter => SDL_HAPTIC_AUTOCENTER
  | .status => SDL_HAPTIC_STATUS
  | .pause => SDL_HAPTIC_PAUSE

/-- Calls into the SDL haptic API. -/
inductive SDLHapticCall where
  | hapticClose (h : Handle)
  deriving DecidableEq, Repr

namespace basic_haptic

/-- The owning `basic_haptic(const int index)` constructor: stores
`SDL_HapticOpen(index)` and throws `sdl_error{}` (carrying the
`SDL_GetError()` string) when the result is null. -/
def ctor_index (openResult : Handle) (sdlGetError : String) : Outcome Handle :=
  if openResult = Handle.null then
    Outcome.thrown (CenError.sdl_error sdlGetError)
  else
    Outcome.ok openResult

/-- `basic_haptic::index()`: a `noexcept` member; `res` is the value of
`SDL_HapticIndex(m_haptic)`, returned in an optional unless it is `-1`. -/
def index (res : Int) : Outcome (Option Int) :=
  Outcome.ok (if res ≠ -1 then some res else none)

/-- `basic_haptic::deleter::operator()`: calls `SDL_HapticClose(haptic)`. -/
def deleter (h : Handle) : List SDLHapticCall :=
  [SDLHapticCall.hapticClose h]

/-- Modelled from the spec: `detail::pointer_manager` (the file
`detail/owner_handle_api.hpp` is not among the sources).  Per the spec's
glossary, an owning wrapper "destroys its underlying resource on
destruction" by running the deleter on the held pointer, while a handle
wrapper "merely observes it" and runs no deleter. -/
def pointer_manager_dtor (owning : Bool) (h : Handle)
    (del : Handle → List SDLHapticCall) : List SDLHapticCall :=
  if owning then del h else []

/-- Destructor of `basic_haptic<B>`: the pointer manager with the
`basic_haptic::deleter` from the source. -/
def dtor (owning : Bool) (h : Handle) : List SDLHapticCall :=
  pointer_manager_dtor owning h deleter

end basic_haptic

/-! ### Mouse wheel direction: `mouse_wheel_direction.hpp` -/

/-- `SDL_MOUSEWHEEL_NORMAL` from the SDL header. -/
def SDL_MOUSEWHEEL_NORMAL : Nat := 0

/-- `SDL_MOUSEWHEEL_FLIPPED` from the SDL header. -/
def SDL_MOUSEWHEEL_FLIPPED : Nat := 1

/-- `cen::mouse_wheel_direction`. -/
inductive mouse_wheel_direction where
  | normal
  | flipped
  deriving DecidableEq, Repr

/-- Underlying integral values of `cen::mouse_wheel_direction`, as assigned
by the enumerators in the source. -/
def mouse_wheel_direction.val : mouse_wheel_direction → Nat
  | .normal => SDL_MOUSEWHEEL_NORMAL
  | .flipped => SDL_MOUSEWHEEL_FLIPPED

/-! ### Clipboard: `clipboard.cpp` -/

namespace clipboard

/-- `clipboard::set_text(nn_czstring)`: a `noexcept` function returning
`SDL_SetClipboardText(text) == 0`; `sdlRet` is the native return code. -/
def set_text (sdlRet : Int) : Outcome Bool :=
  Outcome.ok (sdlRet == 0)

end clipboard

/-! ### Mouse button events: `mouse_button_event.cpp` -/

/-- The wrapped native `SDL_MouseButtonEvent` struct, field for field. -/
structure SDL_MouseButtonEvent where
  type : Nat
  timestamp : Nat
  windowID : Nat
  which : Nat
  button : Nat
  state : Nat
  clicks : Nat
  padding1 : Nat
  x : Int
  y : Int
  deriving DecidableEq, Repr

namespace MouseButtonEvent

/-- `MouseButtonEvent::set_window_id(u32)`: `m_event.windowID = id`. -/
def set_window_id (e : SDL_MouseButtonEvent) (id : Nat) : SDL_MouseButtonEvent :=
  { e with windowID := id }

/-- `MouseButtonEvent::set_which(u32)`: `m_event.which = which`. -/
def set_which (e : SDL_MouseButtonEvent) (which : Nat) : SDL_MouseButtonEvent :=
  { e with which := which }

/-- `MouseButtonEvent::set_button(MouseButton)`:
`m_event.button = static_cast<u8>(button)`; the argument is the underlying
integral value, truncated to eight bits by the cast. -/
def set_button (e : SDL_MouseButtonEvent) (button : Nat) : SDL_MouseButtonEvent :=
  { e with button := button % 256 }

/-- `MouseButtonEvent::set_state(ButtonState)`:
`m_event.state = static_cast<u8>(state)`. -/
def set_state (e : SDL_MouseButtonEvent) (state : Nat) : SDL_MouseButtonEvent :=
  { e with state := state % 256 }

/-- `MouseButtonEvent::set_clicks(u8)`: `m_event.clicks = clicks`. -/
def set_clicks (e : SDL_MouseButtonEvent) (clicks : Nat) : SDL_MouseButtonEvent :=
  { e with clicks := clicks }

/-- `MouseButtonEvent::set_x(i32)`: `m_event.x = x`. -/
def set_x (e : SDL_MouseButtonEvent) (x : Int) : SDL_MouseButtonEvent :=
  { e with x := x }

/-- `MouseButtonEvent::set_y(i32)`: `m_event.y = y`. -/
def set_y (e : SDL_MouseButtonEvent) (y : Int) : SDL_MouseButtonEvent :=
  { e with y := y }

/-- `MouseButtonEvent::window_id()`. -/
def window_id (e : SDL_MouseButtonEvent) : Nat := e.windowID

/-- `MouseButtonEvent::which()`. -/
def which (e : SDL_MouseButtonEvent) : Nat := e.which

/-- `MouseButtonEvent::button()` (underlying value of the returned
enumerator). -/
def button (e : SDL_MouseButtonEvent) : Nat := e.button

/-- `MouseButtonEvent::state()` (underlying value of the returned
enumerator). -/
def state (e : SDL_MouseButtonEvent) : Nat := e.state

/-- `MouseButtonEvent::clicks()`. -/
def clicks (e : SDL_MouseButtonEvent) : Nat := e.clicks

/-- `MouseButtonEvent::x()`. -/
def x (e : SDL_MouseButtonEvent) : Int := e.x

/-- `MouseButtonEvent::y()`. -/
def y (e : SDL_MouseButtonEvent) : Int := e.y

end MouseButtonEvent

/-! ### Exceptions: `centurion_exception.cpp` -/

/-- The `CenturionException` object: it stores a `std::string` message. -/
structure CenturionException where
  msg : String
  deriving DecidableEq, Repr

/-- `CenturionException::CenturionException(const char* msg)`:
`msg{msg ? msg : "N/A"}` — a null C string (`none`) is never dereferenced,
the placeholder is stored instead. -/
def CenturionException.ofCzstring (m : Option String) : CenturionException :=
  CenturionException.mk (match m with
    | some s => s
    | none => "N/A")

/-- `CenturionException::what()`: returns the stored string. -/
def CenturionException.what (e : CenturionException) : String :=
  e.msg

end Centurion

namespace Centurion

/-! ## Claim theorems -/

/-- C1 (counterexample): the claim that every setter forwards its argument
unchanged, "including out-of-range ones", is false: `music::set_volume(-5)`
passes `0` (the clamped value) to `Mix_VolumeMusic`, not `-5`. -/
theorem c1_exact_forwarding_counterexample :
    music.set_volume (-5) = [MixCall.volumeMusic 0] ∧
    music.set_volume (-5) ≠ [MixCall.volumeMusic (-5)] := by
  decide

/-- C1 (amended): setters forward in-range arguments to the wrapped library
exactly, but out-of-range arguments are clamped first: `set_volume` passes
`clamp(volume, 0, MIX_MAX_VOLUME)`, `play` passes `nLoops` clamped below
`-1` up to `-1`, `fade_in` likewise; the getter `volume` returns exactly the
value the wrapped `Mix_VolumeMusic(-1)` call yields. -/
theorem c1_exact_forwarding_amended (v ms n lib : Int) :
    (0 ≤ v → v ≤ MIX_MAX_VOLUME → music.set_volume v = [MixCall.volumeMusic v]) ∧
    (-1 ≤ n → music.play n = [MixCall.playMusic n]) ∧
    (0 ≤ ms → -1 ≤ n → music.fade_in ms n = [MixCall.fadeInMusic n ms]) ∧
    music.set_volume v = [MixCall.volumeMusic (clamp v 0 MIX_MAX_VOLUME)] ∧
    music.play n = [MixCall.playMusic (if n < -1 then -1 else n)] ∧
    (music.volume lib).1 = lib ∧
    (music.volume lib).2 = [MixCall.volumeMusic (-1)] := by
  refine ⟨?_, ?_, ?_, rfl, rfl, rfl, rfl⟩
  · intro h1 h2
    have hc : clamp v 0 MIX_MAX_VOLUME = v := by
      unfold clamp
      rw [if_neg (by omega), if_neg (by omega)]
    simp [music.set_volume, hc]
  · intro h
    simp [music.play, if_neg (show ¬ n < -1 by omega)]
  · intro h1 h2
    simp [music.fade_in, if_neg (show ¬ ms < 0 by omega),
      if_neg (show ¬ n < -1 by omega)]

/-- C1 (witness): the amended theorem at volume 7, loops 2, 3 ms, library
volume 42. -/
theorem c1_exact_forwarding_amended_witness :
    music.set_volume 7 = [MixCall.volumeMusic 7] ∧
    music.play 2 = [MixCall.playMusic 2] ∧
    music.fade_in 3 2 = [MixCall.fadeInMusic 2 3] ∧
    (music.volume 42).1 = 42 := by
  have h := c1_exact_forwarding_amended 7 3 2 42
  exact ⟨h.1 (by decide) (by decide), h.2.1 (by decide),
    h.2.2.1 (by decide) (by decide), h.2.2.2.2.2.1⟩

/-- C2: each creation constructor throws exactly when the wrapped creation
call returns null, and otherwise completes holding the returned handle: the
music constructor throws `mix_error` exactly when `Mix_LoadMUS` is null, the
thread constructor throws `sdl_error` exactly when `SDL_CreateThread` is
null, and the owning `basic_haptic(index)` constructor throws `sdl_error`
exactly when `SDL_HapticOpen` is null. -/
theorem c2_ctor_throws_iff_null (r : Handle) (err : String) :
    ((music.ctor r).throws = true ↔ r = Handle.null) ∧
    music.ctor Handle.null
      = Outcome.thrown (CenError.mix_error ("Failed to load music from file!")) ∧
    (r ≠ Handle.null → music.ctor r = Outcome.ok r) ∧
    ((thread.ctor r err).throws = true ↔ r = Handle.null) ∧
    thread.ctor Handle.null err = Outcome.thrown (CenError.sdl_error err) ∧
    (r ≠ Handle.null → thread.ctor r err = Outcome.ok (thread.mk r false false)) ∧
    ((basic_haptic.ctor_index r err).throws = true ↔ r = Handle.null) ∧
    basic_haptic.ctor_index Handle.null err
      = Outcome.thrown (CenError.sdl_error err) ∧
    (r ≠ Handle.null → basic_haptic.ctor_index r err = Outcome.ok r) := by
  by_cases h : r = Handle.null <;>
    simp [music.ctor, thread.ctor, basic_haptic.ctor_index, Outcome.throws, h]

/-- C2 (witness): the constructors at a valid handle complete normally
holding that handle. -/
theorem c2_ctor_throws_iff_null_witness :
    music.ctor (Handle.valid 3) = Outcome.ok (Handle.valid 3) ∧
    thread.ctor (Handle.valid 3) "E"
      = Outcome.ok (thread.mk (Handle.valid 3) false false) ∧
    basic_haptic.ctor_index (Handle.valid 3) "E" = Outcome.ok (Handle.valid 3) := by
  have h := c2_ctor_throws_iff_null (Handle.valid 3) "E"
  exact ⟨h.2.2.1 (by decide), h.2.2.2.2.2.1 (by decide),
    h.2.2.2.2.2.2.2.2 (by decide)⟩

/-- C3 (counterexample): the claim that every fallible operation reports
failure by throwing is false: at a failing native return code,
`thread::set_priority` returns `failure`, `basic_haptic::index` returns
`std::nullopt`, and `clipboard::set_text` returns `false`; none of them
throws. -/
theorem c3_return_value_counterexample :
    thread.set_priority (-1) = Outcome.ok false ∧
    (thread.set_priority (-1)).throws = false ∧
    basic_haptic.index (-1) = Outcome.ok none ∧
    (basic_haptic.index (-1)).throws = false ∧
    clipboard.set_text (-1) = Outcome.ok false ∧
    (clipboard.set_text (-1)).throws = false := by
  decide

/-- C3 (amended): creation constructors report failure by throwing, but the
fallible non-creation operations `thread::set_priority`,
`basic_haptic::index`, and `clipboard::set_text` never throw and report
failure through their return values (`failure`, `std::nullopt`, `false`
respectively). -/
theorem c3_return_value_amended (ret res : Int) :
    (thread.set_priority ret).throws = false ∧
    thread.set_priority ret = Outcome.ok (ret == 0) ∧
    (basic_haptic.index res).throws = false ∧
    basic_haptic.index res = Outcome.ok (if res = -1 then none else some res) ∧
    (clipboard.set_text ret).throws = false ∧
    clipboard.set_text ret = Outcome.ok (ret == 0) := by
  refine ⟨rfl, rfl, rfl, ?_, rfl, rfl⟩
  simp [basic_haptic.index, ite_not]

/-- C4 (counterexample): the claim that `thread::join` performs its one call
to `SDL_WaitThread` "in every state of the object" is false: on an already
joined thread, `join` makes no library call at all and returns `0`. -/
theorem c4_skipped_call_counterexample :
    (thread.join (thread.mk (Handle.valid 1) true false) 7).2.2 = [] ∧
    (thread.join (thread.mk (Handle.valid 1) true false) 7).2.2
      ≠ [SDLThreadCall.waitThread] ∧
    (thread.join (thread.mk (Handle.valid 1) true false) 7).1 = 0 := by
  decide

/-- C4 (amended): each operation performs at most one forwarding call:
`music::fade_out` calls `Mix_FadeOutMusic` exactly when no fade is in
progress (and otherwise makes no call), and `thread::join` calls
`SDL_WaitThread` exactly when the thread is joinable (and otherwise makes no
call and returns `0`). -/
theorem c4_at_most_one_call_amended (f : Mix_Fading) (ms st : Int) (t : thread) :
    (music.is_fading f = false →
      music.fade_out f ms = [MixCall.fadeOutMusic (if ms < 0 then 0 else ms)]) ∧
    (music.is_fading f = true → music.fade_out f ms = []) ∧
    (t.joinable = true →
      (t.join st).2.2 = [SDLThreadCall.waitThread] ∧ (t.join st).1 = st) ∧
    (t.joinable = false → t.join st = (0, t, [])) := by
  refine ⟨?_, ?_, ?_, ?_⟩
  · intro h
    simp [music.fade_out, h]
  · intro h
    simp [music.fade_out, h]
  · intro h
    obtain ⟨ht, j, d⟩ := t
    cases j <;> cases d <;> simp_all [thread.joinable, thread.join]
  · intro h
    obtain ⟨ht, j, d⟩ := t
    cases j <;> cases d <;> simp_all [thread.joinable, thread.join]

/-- C4 (witness): the amended theorem on a non-fading music state and a
joinable thread. -/
theorem c4_at_most_one_call_amended_witness :
    music.fade_out Mix_Fading.no_fading 10 = [MixCall.fadeOutMusic 10] ∧
    (thread.join (thread.mk (Handle.valid 1) false false) 7).2.2
      = [SDLThreadCall.waitThread] ∧
    (thread.join (thread.mk (Handle.valid 1) true false) 7) =
      (0, thread.mk (Handle.valid 1) true false, []) := by
  have h := c4_at_most_one_call_amended Mix_Fading.no_fading 10 7
    (thread.mk (Handle.valid 1) false false)
  have h2 := c4_at_most_one_call_amended Mix_Fading.no_fading 10 7
    (thread.mk (Handle.valid 1) true false)
  have h1 := h.1 (by decide)
  norm_num at h1
  exact ⟨h1, (h.2.2.1 (by decide)).1, h2.2.2.2 (by decide)⟩

/-- C5: the mouse button event wrapper mirrors the native struct
field-for-field: `set_which`, `set_clicks`, `set_x` store exactly the given
value in the corresponding field of the wrapped `SDL_MouseButtonEvent`, the
matching getter then returns exactly that value, and every other field of
the wrapped struct is left unchanged by the setter. -/
theorem c5_mouse_button_event_mirror (e : SDL_MouseButtonEvent) (v : Nat) (ix : Int) :
    MouseButtonEvent.which (MouseButtonEvent.set_which e v) = v ∧
    (MouseButtonEvent.set_which e v).type = e.type ∧
    (MouseButtonEvent.set_which e v).timestamp = e.timestamp ∧
    MouseButtonEvent.window_id (MouseButtonEvent.set_which e v)
      = MouseButtonEvent.window_id e ∧
    MouseButtonEvent.button (MouseButtonEvent.set_which e v)
      = MouseButtonEvent.button e ∧
    MouseButtonEvent.state (MouseButtonEvent.set_which e v)
      = MouseButtonEvent.state e ∧
    MouseButtonEvent.clicks (MouseButtonEvent.set_which e v)
      = MouseButtonEvent.clicks e ∧
    (MouseButtonEvent.set_which e v).padding1 = e.padding1 ∧
    MouseButtonEvent.x (MouseButtonEvent.set_which e v) = MouseButtonEvent.x e ∧
    MouseButtonEvent.y (MouseButtonEvent.set_which e v) = MouseButtonEvent.y e ∧
    MouseButtonEvent.clicks (MouseButtonEvent.set_clicks e v) = v ∧
    (MouseButtonEvent.set_clicks e v).type = e.type ∧
    (MouseButtonEvent.set_clicks e v).timestamp = e.timestamp ∧
    MouseButtonEvent.window_id (MouseButtonEvent.set_clicks e v)
      = MouseButtonEvent.window_id e ∧
    MouseButtonEvent.which (MouseButtonEvent.set_clicks e v)
      = MouseButtonEvent.which e ∧
    MouseButtonEvent.button (MouseButtonEvent.set_clicks e v)
      = MouseButtonEvent.button e ∧
    MouseButtonEvent.state (MouseButtonEvent.set_clicks e v)
      = MouseButtonEvent.state e ∧
    (MouseButtonEvent.set_clicks e v).padding1 = e.padding1 ∧
    MouseButtonEvent.x (MouseButtonEvent.set_clicks e v) = MouseButtonEvent.x e ∧
    MouseButtonEvent.y (MouseButtonEvent.set_clicks e v) = MouseButtonEvent.y e ∧
    MouseButtonEvent.x (MouseButtonEvent.set_x e ix) = ix ∧
    (MouseButtonEvent.set_x e ix).type = e.type ∧
    (MouseButtonEvent.set_x e ix).timestamp = e.timestamp ∧
    MouseButtonEvent.window_id (MouseButtonEvent.set_x e ix)
      = MouseButtonEvent.window_id e ∧
    MouseButtonEvent.which (MouseButtonEvent.set_x e ix)
      = MouseButtonEvent.which e ∧
    MouseButtonEvent.button (MouseButtonEvent.set_x e ix)
      = MouseButtonEvent.button e ∧
    MouseButtonEvent.state (MouseButtonEvent.set_x e ix)
      = MouseButtonEvent.state e ∧
    MouseButtonEvent.clicks (MouseButtonEvent.set_x e ix)
      = MouseButtonEvent.clicks e ∧
    (MouseButtonEvent.set_x e ix).padding1 = e.padding1 ∧
    MouseButtonEvent.y (MouseButtonEvent.set_x e ix) = MouseButtonEvent.y e :=
  ⟨rfl, rfl, rfl, rfl, rfl, rfl, rfl, rfl, rfl, rfl,
   rfl, rfl, rfl, rfl, rfl, rfl, rfl, rfl, rfl, rfl,
   rfl, rfl, rfl, rfl, rfl, rfl, rfl, rfl, rfl, rfl⟩

/-- C6: every enumerator of the wrapper enums has the underlying value of
the matching native constant: `thread_priority` matches
`SDL_ThreadPriority`, `mouse_wheel_direction` matches
`SDL_MouseWheelDirection`, and `haptic_feature` matches the `SDL_HAPTIC_*`
flags. -/
theorem c6_enum_values_match_native :
    thread_priority.val thread_priority.low = SDL_THREAD_PRIORITY_LOW ∧
    thread_priority.val thread_priority.normal = SDL_THREAD_PRIORITY_NORMAL ∧
    thread_priority.val thread_priority.high = SDL_THREAD_PRIORITY_HIGH ∧
    thread_priority.val thread_priority.critical
      = SDL_THREAD_PRIORITY_TIME_CRITICAL ∧
    mouse_wheel_direction.val mouse_wheel_direction.normal
      = SDL_MOUSEWHEEL_NORMAL ∧
    mouse_wheel_direction.val mouse_wheel_direction.flipped
      = SDL_MOUSEWHEEL_FLIPPED ∧
    haptic_feature.val haptic_feature.constant = SDL_HAPTIC_CONSTANT ∧
    haptic_feature.val haptic_feature.sine = SDL_HAPTIC_SINE ∧
    haptic_feature.val haptic_feature.left_right = SDL_HAPTIC_LEFTRIGHT ∧
    haptic_feature.val haptic_feature.triangle = SDL_HAPTIC_TRIANGLE ∧
    haptic_feature.val haptic_feature.sawtooth_up = SDL_HAPTIC_SAWTOOTHUP ∧
    haptic_feature.val haptic_feature.sawtooth_down = SDL_HAPTIC_SAWTOOTHDOWN ∧
    haptic_feature.val haptic_feature.ramp = SDL_HAPTIC_RAMP ∧
    haptic_feature.val haptic_feature.spring = SDL_HAPTIC_SPRING ∧
    haptic_feature.val haptic_feature.damper = SDL_HAPTIC_DAMPER ∧
    haptic_feature.val haptic_feature.inertia = SDL_HAPTIC_INERTIA ∧
    haptic_feature.val haptic_feature.friction = SDL_HAPTIC_FRICTION ∧
    haptic_feature.val haptic_feature.custom = SDL_HAPTIC_CUSTOM ∧
    haptic_feature.val haptic_feature.gain = SDL_HAPTIC_GAIN ∧
    haptic_feature.val haptic_feature.autocenter = SDL_HAPTIC_AUTOCENTER ∧
    haptic_feature.val haptic_feature.status = SDL_HAPTIC_STATUS ∧
    haptic_feature.val haptic_feature.pause = SDL_HAPTIC_PAUSE := by
  decide

/-- C7: RAII destructors release through the library's join/close call: the
thread destructor calls `SDL_WaitThread` exactly when the thread was neither
joined nor detached (and otherwise makes no library call), the owning haptic
wrapper's destructor calls `SDL_HapticClose` on the held handle, and the
non-owning `haptic_handle` destructor closes nothing. -/
theorem c7_raii_destructors (t : thread) (h : Handle) :
    (t.m_joined = false ∧ t.m_detached = false →
      t.dtor = [SDLThreadCall.waitThread]) ∧
    ((t.m_joined || t.m_detached) = true → t.dtor = []) ∧
    basic_haptic.dtor true h = [SDLHapticCall.hapticClose h] ∧
    basic_haptic.dtor false h = [] := by
  refine ⟨?_, ?_, rfl, rfl⟩
  · rintro ⟨h1, h2⟩
    simp [thread.dtor, thread.joinable, thread.join, h1, h2]
  · intro hflag
    obtain ⟨ht, j, d⟩ := t
    cases j <;> cases d <;> simp_all [thread.dtor, thread.joinable, thread.join]

/-- C7 (witness): a fresh thread's destructor joins, an already joined
thread's destructor makes no call, and the owning haptic destructor closes
its handle. -/
theorem c7_raii_destructors_witness :
    (thread.mk (Handle.valid 2) false false).dtor = [SDLThreadCall.waitThread] ∧
    (thread.mk (Handle.valid 2) true false).dtor = [] ∧
    basic_haptic.dtor true (Handle.valid 2)
      = [SDLHapticCall.hapticClose (Handle.valid 2)] := by
  exact ⟨(c7_raii_destructors (thread.mk (Handle.valid 2) false false)
            (Handle.valid 2)).1 ⟨rfl, rfl⟩,
         (c7_raii_destructors (thread.mk (Handle.valid 2) true false)
            (Handle.valid 2)).2.1 (by decide),
         (c7_raii_destructors (thread.mk (Handle.valid 2) false false)
            (Handle.valid 2)).2.2.1⟩

/-- Helper: once a thread is joined or detached, any further sequence of
`join`/`detach` calls leaves the state unchanged. -/
theorem thread_run_absorbed (t : thread) (ops : List ThreadOp)
    (h : (t.m_joined || t.m_detached) = true) : thread.run t ops = t := by
  induction ops with
  | nil => rfl
  | cons op rest ih =>
    have hs : t.step op = t := by
      cases op <;> simp [thread.step, thread.join, thread.detach, h]
    calc thread.run t (op :: rest) = thread.run (t.step op) rest := rfl
    _ = thread.run t rest := by rw [hs]
    _ = t := ih

/-- Helper: running a sequence of `join`/`detach` calls from a freshly
constructed thread either is the empty sequence and changes nothing, or
leaves exactly one of the two flags set. -/
theorem thread_run_fresh (h0 : Handle) (ops : List ThreadOp) :
    (ops = [] ∧ thread.run (thread.mk h0 false false) ops
        = thread.mk h0 false false) ∨
    (ops ≠ [] ∧ (thread.run (thread.mk h0 false false) ops).m_joined
        ≠ (thread.run (thread.mk h0 false false) ops).m_detached) := by
  cases ops with
  | nil => exact Or.inl ⟨rfl, rfl⟩
  | cons op rest =>
    refine Or.inr ⟨by simp, ?_⟩
    cases op
    · have hr : thread.run (thread.mk h0 false false) (ThreadOp.join :: rest)
          = thread.mk h0 true false := by
        calc thread.run (thread.mk h0 false false) (ThreadOp.join :: rest)
            = thread.run (thread.mk h0 true false) rest := rfl
        _ = thread.mk h0 true false := thread_run_absorbed _ _ rfl
      rw [hr]
      simp
    · have hr : thread.run (thread.mk h0 false false) (ThreadOp.detach :: rest)
          = thread.mk h0 false true := by
        calc thread.run (thread.mk h0 false false) (ThreadOp.detach :: rest)
            = thread.run (thread.mk h0 false true) rest := rfl
        _ = thread.mk h0 false true := thread_run_absorbed _ _ rfl
      rw [hr]
      simp

/-- C8: the thread join/detach state machine: after any sequence of
`join`/`detach` calls on a constructed thread, `was_joined` and
`was_detached` are never both true, and `joinable` holds exactly when the
sequence is empty; moreover on any already joined-or-detached state, `join`
returns `0` with no state change and no library call, and `detach` is a
no-op with no library call. -/
theorem c8_join_detach_state_machine (h0 : Handle) (ops : List ThreadOp) :
    (¬((thread.run (thread.mk h0 false false) ops).was_joined = true ∧
       (thread.run (thread.mk h0 false false) ops).was_detached = true)) ∧
    ((thread.run (thread.mk h0 false false) ops).joinable = true ↔ ops = []) ∧
    (∀ t : thread, (t.m_joined || t.m_detached) = true →
      (∀ st : Int, t.join st = (0, t, [])) ∧ t.detach = (t, [])) := by
  refine ⟨?_, ?_, ?_⟩
  · rcases thread_run_fresh h0 ops with ⟨_, hrun⟩ | ⟨_, hne⟩
    · rw [hrun]
      simp [thread.was_joined, thread.was_detached]
    · rintro ⟨hj, hd⟩
      rw [thread.was_joined] at hj
      rw [thread.was_detached] at hd
      exact hne (hj.trans hd.symm)
  · rcases thread_run_fresh h0 ops with ⟨hops, hrun⟩ | ⟨hops, hne⟩
    · rw [hrun]
      simp [thread.joinable, hops]
    · cases hj : (thread.run (thread.mk h0 false false) ops).m_joined <;>
        cases hd : (thread.run (thread.mk h0 false false) ops).m_detached <;>
        simp_all [thread.joinable]
  · intro t hflag
    exact ⟨fun st => by simp [thread.join, hflag], by simp [thread.detach, hflag]⟩

/-- C8 (witness): after one `join` the thread is no longer joinable, and on
an already joined thread both `join` and `detach` are no-ops with no library
call. -/
theorem c8_join_detach_state_machine_witness :
    (thread.run (thread.mk (Handle.valid 1) false false) [ThreadOp.join]).joinable
      = false ∧
    (thread.mk (Handle.valid 1) true false).join 5
      = (0, thread.mk (Handle.valid 1) true false, []) ∧
    (thread.mk (Handle.valid 1) true false).detach
      = (thread.mk (Handle.valid 1) true false, []) := by
  have h := c8_join_detach_state_machine (Handle.valid 1) [ThreadOp.join]
  have hno := (c8_join_detach_state_machine (Handle.valid 1) []).2.2
    (thread.mk (Handle.valid 1) true false) (by decide)
  refine ⟨?_, hno.1 5, hno.2⟩
  have hne := h.2.1
  cases hj : (thread.run (thread.mk (Handle.valid 1) false false)
      [ThreadOp.join]).joinable
  · rfl
  · exact absurd (hne.mp hj) (by simp)

/-- C9 (counterexample): the claim that `music::fade_out` passes `0`
milliseconds for every negative duration is false when a fade is already in
progress: there `fade_out` makes no library call at all. -/
theorem c9_clamping_counterexample :
    music.fade_out Mix_Fading.fading_in (-5) = [] ∧
    music.fade_out Mix_Fading.fading_in (-5) ≠ [MixCall.fadeOutMusic 0] := by
  decide

/-- C9 (amended): out-of-range playback arguments are silently clamped, not
rejected: `play` and `fade_in` pass `-1` for any `nLoops < -1`, `fade_in`
passes `0` for any negative duration, `fade_out` passes `0` for any negative
duration whenever it performs its library call (it makes no call when a fade
is already in progress), and `set_volume` passes
`clamp(volume, 0, MIX_MAX_VOLUME)`; none of these operations reports an
error. -/
theorem c9_clamping_amended (n ms v : Int) (f : Mix_Fading) :
    (n < -1 → music.play n = [MixCall.playMusic (-1)]) ∧
    (n < -1 →
      music.fade_in ms n = [MixCall.fadeInMusic (-1) (if ms < 0 then 0 else ms)]) ∧
    (ms < 0 →
      music.fade_in ms n = [MixCall.fadeInMusic (if n < -1 then -1 else n) 0]) ∧
    (ms < 0 → music.is_fading f = false →
      music.fade_out f ms = [MixCall.fadeOutMusic 0]) ∧
    (music.is_fading f = true → music.fade_out f ms = []) ∧
    music.set_volume v = [MixCall.volumeMusic (clamp v 0 MIX_MAX_VOLUME)] := by
  refine ⟨?_, ?_, ?_, ?_, ?_, rfl⟩
  · intro h
    simp [music.play, h]
  · intro h
    simp [music.fade_in, h]
  · intro h
    simp [music.fade_in, h]
  · intro h hf
    simp [music.fade_out, hf, h]
  · intro hf
    simp [music.fade_out, hf]

/-- C9 (witness): the amended theorem at `nLoops = -7`, `ms = -3`,
`volume = 300`, with no fade in progress. -/
theorem c9_clamping_amended_witness :
    music.play (-7) = [MixCall.playMusic (-1)] ∧
    music.fade_in (-3) (-7) = [MixCall.fadeInMusic (-1) 0] ∧
    music.fade_out Mix_Fading.no_fading (-3) = [MixCall.fadeOutMusic 0] ∧
    music.set_volume 300 = [MixCall.volumeMusic 128] := by
  have h := c9_clamping_amended (-7) (-3) 300 Mix_Fading.no_fading
  have h2 := h.2.1 (by decide)
  norm_num at h2
  have h6 := h.2.2.2.2.2
  norm_num [clamp, MIX_MAX_VOLUME] at h6
  exact ⟨h.1 (by decide), h2, h.2.2.2.1 (by decide) rfl, h6⟩

/-- C10: constructing a `CenturionException` from a C string is null-safe:
a null pointer is never dereferenced and yields the stored placeholder
`"N/A"`, a non-null pointer's string is stored as-is, and `what()` returns
exactly the stored string. -/
theorem c10_exception_null_message (m : Option String) (s : String) :
    (CenturionException.ofCzstring (some s)).what = s ∧
    (CenturionException.ofCzstring none).what = "N/A" ∧
    (CenturionException.ofCzstring m).what = (CenturionException.ofCzstring m).msg :=
  ⟨rfl, rfl, rfl⟩

end Centurion
